import Mathlib

/-!
Verification development for the head-pose-to-cursor control loop of
`src/MonitorTracking.py` (classes `OneEuroFilter` and `HeadMouseTracker`).

The Python floating-point numbers are modelled as real numbers; the
transcendental operations of the source (`math.acos`, `np.linalg.norm`,
`math.pi`) are modelled by `Real.arccos`, `Real.sqrt` and `Real.pi`, so the
numeric definitions live in a `noncomputable section`.  Python `int()`
(truncation toward zero), `round()` (banker's rounding) and the
truthiness of optional float arguments (`any([...])`, `x or default`)
are modelled explicitly below.  Real division by zero follows Lean's
convention `x / 0 = 0`; in the source the corresponding degenerate
frames produce non-finite values whose `int()` conversion raises, which
aborts the processing iteration before any state change and is modelled
explicitly by the `Option`-valued iteration step `processFrameStep`, so
no theorem below relies on the value of such a division.
-/

noncomputable section

open Real

/-- A 3-component vector, modelling the numpy arrays of length 3 used by
`MonitorTracking.py` (landmark points and direction vectors). -/
structure Vec3 where
  x : ℝ
  y : ℝ
  z : ℝ

/-- Componentwise addition, modelling numpy vector `+`. -/
def Vec3.add (a b : Vec3) : Vec3 := ⟨a.x + b.x, a.y + b.y, a.z + b.z⟩

/-- Componentwise subtraction, modelling numpy vector `-`. -/
def Vec3.sub (a b : Vec3) : Vec3 := ⟨a.x - b.x, a.y - b.y, a.z - b.z⟩

/-- Componentwise negation, modelling `-v` (line 329 of the source). -/
def Vec3.neg (a : Vec3) : Vec3 := ⟨-a.x, -a.y, -a.z⟩

/-- Division of a vector by a scalar, modelling `v / c`. -/
def Vec3.divs (a : Vec3) (c : ℝ) : Vec3 := ⟨a.x / c, a.y / c, a.z / c⟩

/-- Dot product, modelling `np.dot`. -/
def Vec3.dot (a b : Vec3) : ℝ := a.x * b.x + a.y * b.y + a.z * b.z

/-- Cross product, modelling `np.cross`. -/
def Vec3.cross (a b : Vec3) : Vec3 :=
  ⟨a.y * b.z - a.z * b.y, a.z * b.x - a.x * b.z, a.x * b.y - a.y * b.x⟩

/-- Euclidean norm, modelling `np.linalg.norm` on a 3-vector. -/
def Vec3.norm (a : Vec3) : ℝ := Real.sqrt (a.x ^ 2 + a.y ^ 2 + a.z ^ 2)

/-- Normalization `v /= np.linalg.norm(v)` (lines 322, 325, 328, 362, 369,
376 of the source). -/
def Vec3.normalize (a : Vec3) : Vec3 := a.divs a.norm

/-- Running mean of a list of vectors, modelling `np.mean(buffer, axis=0)`
(lines 360-361 of the source): componentwise sum divided by the length. -/
def Vec3.mean (l : List Vec3) : Vec3 :=
  (l.foldl Vec3.add ⟨0, 0, 0⟩).divs l.length

/-- Appending to a `collections.deque(maxlen=n)`: the new element goes to
the right and, when the capacity is exceeded, the oldest elements are
dropped from the left. -/
def dequeAppend (l : List Vec3) (v : Vec3) (maxlen : ℕ) : List Vec3 :=
  (l ++ [v]).drop (l.length + 1 - maxlen)

/-- Python `int()` applied to a float: truncation toward zero
(lines 401-402 of the source). -/
def pyInt (r : ℝ) : ℤ := if r < 0 then ⌈r⌉ else ⌊r⌋

/-- Python 3 `round()` applied to a float: round half to even
(lines 409-410 of the source). -/
def pyRound (r : ℝ) : ℤ :=
  if r - ⌊r⌋ = 1 / 2 then (if ⌊r⌋ % 2 = 0 then ⌊r⌋ else ⌊r⌋ + 1) else round r

/-- Python truthiness of an optional float argument, as tested by
`any([euro_min_cutoff, euro_beta, euro_freq])` on line 103 of the source:
`None` and `0.0` are falsy, every other float is truthy. -/
def pyTruthy (o : Option ℝ) : Bool :=
  match o with
  | none => false
  | some v => if v = 0 then false else true

/-- The Python idiom `value or default` used on lines 110-112 and 116-118
of the source: the default is taken when the value is `None` or `0.0`. -/
def pyOr (o : Option ℝ) (dflt : ℝ) : ℝ :=
  match o with
  | none => dflt
  | some v => if v = 0 then dflt else v

/-- `np.clip(x, lo, hi)` on a scalar (lines 370 and 377 of the source). -/
def clip (r lo hi : ℝ) : ℝ := max lo (min r hi)

/-- `np.degrees` (lines 381-382 of the source): radians times `180 / pi`. -/
def radToDeg (r : ℝ) : ℝ := r * 180 / π

/-- State of `OneEuroFilter` (lines 16-61 of the source): the four
coefficients fixed at construction plus the mutable previous smoothed
value and previous smoothed derivative (both `None` on a fresh filter). -/
structure OneEuroFilter where
  min_cutoff : ℝ
  beta : ℝ
  d_cutoff : ℝ
  freq : ℝ
  prev_x : Option ℝ
  prev_dx : Option ℝ

/-- `OneEuroFilter._alpha` (lines 27-31 of the source). -/
def OneEuroFilter.alpha (f : OneEuroFilter) (cutoff : ℝ) : ℝ :=
  let tau := 1 / (2 * π * cutoff)
  let dt := 1 / f.freq
  1 / (1 + tau / dt)

/-- `OneEuroFilter.filter` (lines 33-61 of the source), returning the
output value together with the updated filter state. -/
def OneEuroFilter.filterStep (f : OneEuroFilter) (x : ℝ) : ℝ × OneEuroFilter :=
  let dx : ℝ :=
    match f.prev_x with
    | none => 0
    | some px => (x - px) * f.freq
  let smooth_dx : ℝ :=
    match f.prev_dx with
    | none => dx
    | some pdx =>
        let alpha_d := f.alpha f.d_cutoff
        alpha_d * dx + (1 - alpha_d) * pdx
  let cutoff := f.min_cutoff + f.beta * |smooth_dx|
  let a := f.alpha cutoff
  let smooth_x : ℝ :=
    match f.prev_x with
    | none => x
    | some px => a * x + (1 - a) * px
  (smooth_x, { f with prev_x := some smooth_x, prev_dx := some smooth_dx })

/-- The state of a `HeadMouseTracker` instance that is relevant to the
control loop: every mutable attribute set in `__init__`
(lines 82-156 of the source) except the camera, window and thread
handles, which carry no tracked data. -/
structure TrackerState where
  filter_length : ℕ
  yaw_range : ℝ
  pitch_range : ℝ
  fast_mode : Bool
  allow_override : Bool
  mouse_sleep : ℝ
  screen_w : ℕ
  screen_h : ℕ
  center_x : ℕ
  center_y : ℕ
  mouse_enabled : Bool
  cal_yaw : ℝ
  cal_pitch : ℝ
  raw_yaw : ℝ
  raw_pitch : ℝ
  origins : List Vec3
  directions : List Vec3
  euro_freq : ℝ
  euro_cutoff : ℝ
  euro_beta : ℝ
  filter_x : OneEuroFilter
  filter_y : OneEuroFilter
  mouse_target : ℤ × ℤ

namespace HeadMouseTracker

/-- `HeadMouseTracker.__init__` (lines 82-156 of the source).  The screen
size that the source obtains from `pyautogui.size()` is passed in as
`screen_w`, `screen_h`. -/
def init (filter_length : ℕ) (yaw_degrees pitch_degrees : ℝ)
    (euro_min_cutoff euro_beta euro_freq : Option ℝ)
    (fast_mode allow_runtime_override : Bool)
    (screen_w screen_h : ℕ) : TrackerState :=
  let user_params := pyTruthy euro_min_cutoff || pyTruthy euro_beta || pyTruthy euro_freq
  let allow_override := allow_runtime_override && !user_params
  let mouse_sleep : ℝ := if fast_mode then 0.005 else 0.016
  let freq : ℝ := if fast_mode then pyOr euro_freq 120 else pyOr euro_freq 45
  let cutoff : ℝ := if fast_mode then pyOr euro_min_cutoff 0.8 else pyOr euro_min_cutoff 1.5
  let beta : ℝ := if fast_mode then pyOr euro_beta 0.015 else pyOr euro_beta 0.03
  { filter_length := filter_length
    yaw_range := yaw_degrees
    pitch_range := pitch_degrees
    fast_mode := fast_mode
    allow_override := allow_override
    mouse_sleep := mouse_sleep
    screen_w := screen_w
    screen_h := screen_h
    center_x := screen_w / 2
    center_y := screen_h / 2
    mouse_enabled := true
    cal_yaw := 0
    cal_pitch := 0
    raw_yaw := 180
    raw_pitch := 180
    origins := []
    directions := []
    euro_freq := freq
    euro_cutoff := cutoff
    euro_beta := beta
    filter_x := ⟨cutoff, beta, 1, freq, none, none⟩
    filter_y := ⟨cutoff, beta, 1, freq, none, none⟩
    mouse_target := ((screen_w / 2 : ℕ), (screen_h / 2 : ℕ)) }

/-- `HeadMouseTracker.toggle_mouse_control` (lines 224-228 of the source). -/
def toggle_mouse_control (s : TrackerState) : TrackerState :=
  { s with mouse_enabled := !s.mouse_enabled }

/-- `HeadMouseTracker.set_performance_mode` (lines 230-259 of the source). -/
def set_performance_mode (s : TrackerState) (fast_mode : Bool) : TrackerState :=
  let s1 := { s with fast_mode := fast_mode,
                     mouse_sleep := if fast_mode then 0.005 else 0.016 }
  if s1.allow_override then
    let freq : ℝ := if fast_mode then 120 else 45
    let cutoff : ℝ := if fast_mode then 0.8 else 1.5
    let beta : ℝ := if fast_mode then 0.015 else 0.03
    { s1 with euro_freq := freq, euro_cutoff := cutoff, euro_beta := beta,
              filter_x := ⟨cutoff, beta, 1, freq, none, none⟩,
              filter_y := ⟨cutoff, beta, 1, freq, none, none⟩ }
  else s1

/-- `HeadMouseTracker.calibrate_center` (lines 261-265 of the source). -/
def calibrate_center (s : TrackerState) : TrackerState :=
  { s with cal_yaw := 180 - s.raw_yaw, cal_pitch := 180 - s.raw_pitch }

/-- One tick of the `mouse_mover` actuation loop (lines 267-274 of the
source): a pointer move to the shared target is issued only when mouse
control is enabled; the returned value is the issued move, if any. -/
def mouseMoverTick (s : TrackerState) : Option (ℤ × ℤ) :=
  if s.mouse_enabled then some s.mouse_target else none

end HeadMouseTracker

/-- The five key landmark points of a processed frame, already converted
to 3D by `landmark_to_3d` (lines 305-318 of the source). -/
structure FacePoints where
  left : Vec3
  right : Vec3
  top : Vec3
  bottom : Vec3
  front : Vec3

/-- The outward forward vector of the head frame (lines 320-329 of the
source): `-normalize(cross(normalize(right - left), normalize(top - bottom)))`. -/
def faceForward (pts : FacePoints) : Vec3 :=
  Vec3.neg (Vec3.normalize (Vec3.cross
    (Vec3.normalize (Vec3.sub pts.right pts.left))
    (Vec3.normalize (Vec3.sub pts.top pts.bottom))))

/-- The face center (line 332 of the source): the mean of the five points. -/
def faceCenter (pts : FacePoints) : Vec3 :=
  ((((pts.left.add pts.right).add pts.top).add pts.bottom).add pts.front).divs 5

/-- Yaw extraction from the smoothed direction (lines 364-372 of the
source): angle of the normalized horizontal projection to the reference
forward `(0, 0, -1)`, sign-flipped when the x-component is negative,
converted to degrees (line 381). -/
def yawFromDirection (d : Vec3) : ℝ :=
  let ref_forward : Vec3 := ⟨0, 0, -1⟩
  let xz_proj := Vec3.normalize ⟨d.x, 0, d.z⟩
  let r := Real.arccos (clip (Vec3.dot ref_forward xz_proj) (-1) 1)
  radToDeg (if d.x < 0 then -r else r)

/-- Pitch extraction from the smoothed direction (lines 374-379, 382 of
the source), sign-flipped when the y-component is positive. -/
def pitchFromDirection (d : Vec3) : ℝ :=
  let ref_forward : Vec3 := ⟨0, 0, -1⟩
  let yz_proj := Vec3.normalize ⟨0, d.y, d.z⟩
  let r := Real.arccos (clip (Vec3.dot ref_forward yz_proj) (-1) 1)
  radToDeg (if d.y > 0 then -r else r)

/-- Yaw angle normalization (lines 385-388 of the source): negative yaw
becomes its absolute value, positive yaw under 180 becomes `360 - yaw`. -/
def normalizeYawDeg (y : ℝ) : ℝ :=
  if y < 0 then |y| else if y < 180 then 360 - y else y

/-- Pitch angle normalization (lines 389-390 of the source): pitch below
zero wraps by adding 360. -/
def normalizePitchDeg (p : ℝ) : ℝ :=
  if p < 0 then 360 + p else p

/-- Screen x mapping with clamping (lines 401 and 405 of the source):
linear map of the calibrated yaw, truncated with `int()`, clamped to
`[10, screen_w - 10]`. -/
def mapScreenX (yaw_range : ℝ) (screen_w : ℕ) (yaw_deg : ℝ) : ℤ :=
  let screen_x := pyInt (((yaw_deg - (180 - yaw_range)) / (2 * yaw_range)) * screen_w)
  max 10 (min ((screen_w : ℤ) - 10) screen_x)

/-- Screen y mapping with clamping (lines 402 and 406 of the source). -/
def mapScreenY (pitch_range : ℝ) (screen_h : ℕ) (pitch_deg : ℝ) : ℤ :=
  let screen_y := pyInt (((180 + pitch_range - pitch_deg) / (2 * pitch_range)) * screen_h)
  max 10 (min ((screen_h : ℤ) - 10) screen_y)

/-- The smoothed direction for the current frame (lines 358-362 of the
source): the forward vector is appended to the direction ray buffer and
the buffer mean is renormalized. -/
def smoothedDirection (s : TrackerState) (pts : FacePoints) : Vec3 :=
  Vec3.normalize (Vec3.mean (dequeAppend s.directions (faceForward pts) s.filter_length))

/-- The normalized raw yaw of the current frame (lines 364-388 of the
source), as stored into `raw_yaw` on line 393. -/
def frameYaw (s : TrackerState) (pts : FacePoints) : ℝ :=
  normalizeYawDeg (yawFromDirection (smoothedDirection s pts))

/-- The normalized raw pitch of the current frame, as stored into
`raw_pitch` on line 394 of the source. -/
def framePitch (s : TrackerState) (pts : FacePoints) : ℝ :=
  normalizePitchDeg (pitchFromDirection (smoothedDirection s pts))

/-- The clamped screen x of the current frame, computed from the
calibrated yaw (lines 397, 401, 405 of the source). -/
def frameScreenX (s : TrackerState) (pts : FacePoints) : ℤ :=
  mapScreenX s.yaw_range s.screen_w (frameYaw s pts + s.cal_yaw)

/-- The clamped screen y of the current frame, computed from the
calibrated pitch (lines 398, 402, 406 of the source). -/
def frameScreenY (s : TrackerState) (pts : FacePoints) : ℤ :=
  mapScreenY s.pitch_range s.screen_h (framePitch s pts + s.cal_pitch)

/-- Whether the landmark frame is degenerate: a zero-length spanning
vector (`right - left` or `top - bottom` of zero norm) or collinear
spanning directions (zero cross product), tested in the order in which
the source's divisions at lines 322, 325 and 328 first produce a
non-finite vector.  On such a frame the cube corners computed on lines
335-349 of the source contain NaN components, and the `int()`
conversions of the corners on line 353 raise an uncaught ValueError. -/
def degenerateFrame (pts : FacePoints) : Bool :=
  if Vec3.norm (Vec3.sub pts.right pts.left) = 0 then true
  else if Vec3.norm (Vec3.sub pts.top pts.bottom) = 0 then true
  else if Vec3.norm (Vec3.cross (Vec3.normalize (Vec3.sub pts.right pts.left))
      (Vec3.normalize (Vec3.sub pts.top pts.bottom))) = 0 then true
  else false

namespace HeadMouseTracker

/-- The state update performed by a face-detected `process_loop`
iteration on its non-raising path (lines 292-440 of the source), that
is, for frames whose cube-corner conversions on line 353 succeed: the
ray buffers are appended to (lines 358-359), the raw angles are stored
(lines 393-394), the per-axis filters advance on the clamped screen
coordinates (lines 409-410), and the mouse target is rewritten only
when mouse control is enabled (lines 412-416).  Drawing and hotkey
handling have no effect on the tracked state.  `processFrameStep` below
models the iteration including the degenerate-frame abort; every
theorem that applies `processFrame` directly does so at a frame whose
whole pipeline is finite in the source. -/
def processFrame (s : TrackerState) (pts : FacePoints) : TrackerState :=
  let fx := s.filter_x.filterStep (frameScreenX s pts : ℝ)
  let fy := s.filter_y.filterStep (frameScreenY s pts : ℝ)
  { s with
    origins := dequeAppend s.origins (faceCenter pts) s.filter_length
    directions := dequeAppend s.directions (faceForward pts) s.filter_length
    raw_yaw := frameYaw s pts
    raw_pitch := framePitch s pts
    filter_x := fx.2
    filter_y := fy.2
    mouse_target :=
      if s.mouse_enabled then (pyRound fx.1, pyRound fy.1) else s.mouse_target }

/-- One full iteration of `process_loop` for a frame in which a face was
detected.  On a degenerate frame the cube-corner `int()` conversions on
line 353 of the source raise an uncaught ValueError before the
ray-buffer appends of lines 358-359 and the raw-angle stores of lines
393-394, so the iteration aborts with the tracker state unchanged and
the loop terminates (`none`); otherwise the drawing succeeds and the
state update of `processFrame` is performed (`some`). -/
def processFrameStep (s : TrackerState) (pts : FacePoints) : Option TrackerState :=
  if degenerateFrame pts then none else some (processFrame s pts)

/-- One iteration of `process_loop` for a frame with no detected face
(lines 442-447 of the source): the tracker state is untouched and the
loop continues with the next frame. -/
def noFaceStep (s : TrackerState) : TrackerState := s

end HeadMouseTracker

/-! Helper lemmas about the Python-specific numeric conversions. -/

lemma pyInt_eval (x : ℝ) (n : ℤ) (h0 : 0 ≤ x) (h1 : (n : ℝ) ≤ x) (h2 : x < n + 1) :
    pyInt x = n := by
  rw [pyInt, if_neg (not_lt.mpr h0), Int.floor_eq_iff]
  exact ⟨h1, h2⟩

lemma pyRound_intCast (n : ℤ) : pyRound ((n : ℤ) : ℝ) = n := by
  rw [pyRound, Int.floor_intCast, if_neg (by norm_num)]
  exact round_intCast n

lemma pyInt_mono {x y : ℝ} (h : x ≤ y) : pyInt x ≤ pyInt y := by
  rw [pyInt, pyInt]
  by_cases hx : x < 0
  · by_cases hy : y < 0
    · rw [if_pos hx, if_pos hy]
      exact Int.ceil_mono h
    · rw [if_pos hx, if_neg hy]
      have h1 : ⌈x⌉ ≤ 0 := Int.ceil_le.mpr (by exact_mod_cast hx.le)
      have h2 : (0 : ℤ) ≤ ⌊y⌋ := Int.floor_nonneg.mpr (not_lt.mp hy)
      omega
  · have hy : ¬y < 0 := fun hy => hx (h.trans_lt hy)
    rw [if_neg hx, if_neg hy]
    exact Int.floor_mono h

/-- C6: for every coefficient configuration with positive frequency and
cutoffs, the first call of `OneEuroFilter.filter` on a fresh instance
returns its input unchanged and seeds `prev_x` with the input and
`prev_dx` with zero. -/
theorem c6_filter_first_call (mc b dc fr x : ℝ)
    (hfr : 0 < fr) (hmc : 0 < mc) (hdc : 0 < dc) :
    (OneEuroFilter.filterStep ⟨mc, b, dc, fr, none, none⟩ x).1 = x ∧
    (OneEuroFilter.filterStep ⟨mc, b, dc, fr, none, none⟩ x).2.prev_x = some x ∧
    (OneEuroFilter.filterStep ⟨mc, b, dc, fr, none, none⟩ x).2.prev_dx = some 0 :=
  ⟨rfl, rfl, rfl⟩

/-- Witness for C6 at the concrete coefficients (1.5, 0.03, 1, 60) and
input 7. -/
theorem c6_filter_first_call_witness :
    ((0 : ℝ) < 60 ∧ (0 : ℝ) < 1.5 ∧ (0 : ℝ) < 1) ∧
    (OneEuroFilter.filterStep ⟨1.5, 0.03, 1, 60, none, none⟩ 7).1 = 7 ∧
    (OneEuroFilter.filterStep ⟨1.5, 0.03, 1, 60, none, none⟩ 7).2.prev_x = some 7 ∧
    (OneEuroFilter.filterStep ⟨1.5, 0.03, 1, 60, none, none⟩ 7).2.prev_dx = some 0 :=
  ⟨⟨by norm_num, by norm_num, by norm_num⟩,
   c6_filter_first_call 1.5 0.03 1 60 7 (by norm_num) (by norm_num) (by norm_num)⟩

/-- C7: on a tracker constructed with no explicit filter coefficients in
slow mode (runtime override allowed, its default), switching to fast mode
and back restores the slow tick interval 0.016 and the slow coefficients
freq 45, min_cutoff 1.5, beta 0.03, with freshly reconstructed unseeded
per-axis filters; in fact the whole tracker state is restored exactly. -/
theorem c7_mode_roundtrip (fl : ℕ) (yr pr : ℝ) (w h : ℕ) :
    (HeadMouseTracker.set_performance_mode
        (HeadMouseTracker.set_performance_mode
          (HeadMouseTracker.init fl yr pr none none none false true w h) true)
        false).mouse_sleep = 0.016 ∧
    (HeadMouseTracker.set_performance_mode
        (HeadMouseTracker.set_performance_mode
          (HeadMouseTracker.init fl yr pr none none none false true w h) true)
        false).euro_freq = 45 ∧
    (HeadMouseTracker.set_performance_mode
        (HeadMouseTracker.set_performance_mode
          (HeadMouseTracker.init fl yr pr none none none false true w h) true)
        false).euro_cutoff = 1.5 ∧
    (HeadMouseTracker.set_performance_mode
        (HeadMouseTracker.set_performance_mode
          (HeadMouseTracker.init fl yr pr none none none false true w h) true)
        false).euro_beta = 0.03 ∧
    (HeadMouseTracker.set_performance_mode
        (HeadMouseTracker.set_performance_mode
          (HeadMouseTracker.init fl yr pr none none none false true w h) true)
        false).filter_x = ⟨1.5, 0.03, 1, 45, none, none⟩ ∧
    (HeadMouseTracker.set_performance_mode
        (HeadMouseTracker.set_performance_mode
          (HeadMouseTracker.init fl yr pr none none none false true w h) true)
        false).filter_y = ⟨1.5, 0.03, 1, 45, none, none⟩ ∧
    HeadMouseTracker.set_performance_mode
        (HeadMouseTracker.set_performance_mode
          (HeadMouseTracker.init fl yr pr none none none false true w h) true) false =
      HeadMouseTracker.init fl yr pr none none none false true w h :=
  ⟨rfl, rfl, rfl, rfl, rfl, rfl, rfl⟩

/-- Witness for C7 at ray-buffer length 40, ranges 20 and 10 and a
1920 by 1080 screen. -/
theorem c7_mode_roundtrip_witness :
    (HeadMouseTracker.set_performance_mode
        (HeadMouseTracker.set_performance_mode
          (HeadMouseTracker.init 40 20 10 none none none false true 1920 1080) true)
        false).mouse_sleep = 0.016 ∧
    (HeadMouseTracker.set_performance_mode
        (HeadMouseTracker.set_performance_mode
          (HeadMouseTracker.init 40 20 10 none none none false true 1920 1080) true)
        false).euro_freq = 45 ∧
    (HeadMouseTracker.set_performance_mode
        (HeadMouseTracker.set_performance_mode
          (HeadMouseTracker.init 40 20 10 none none none false true 1920 1080) true)
        false).euro_cutoff = 1.5 ∧
    (HeadMouseTracker.set_performance_mode
        (HeadMouseTracker.set_performance_mode
          (HeadMouseTracker.init 40 20 10 none none none false true 1920 1080) true)
        false).euro_beta = 0.03 ∧
    (HeadMouseTracker.set_performance_mode
        (HeadMouseTracker.set_performance_mode
          (HeadMouseTracker.init 40 20 10 none none none false true 1920 1080) true)
        false).filter_x = ⟨1.5, 0.03, 1, 45, none, none⟩ ∧
    (HeadMouseTracker.set_performance_mode
        (HeadMouseTracker.set_performance_mode
          (HeadMouseTracker.init 40 20 10 none none none false true 1920 1080) true)
        false).filter_y = ⟨1.5, 0.03, 1, 45, none, none⟩ ∧
    HeadMouseTracker.set_performance_mode
        (HeadMouseTracker.set_performance_mode
          (HeadMouseTracker.init 40 20 10 none none none false true 1920 1080) true) false =
      HeadMouseTracker.init 40 20 10 none none none false true 1920 1080 :=
  c7_mode_roundtrip 40 20 10 1920 1080

/-- C8: `calibrate_center` sets the offsets to `180 - raw`, the
calibrated angles recomputed from the same raw pose (raw plus offset, as
on lines 397-398 of the source) are exactly 180, and repeating the
calibration from an unchanged pose leaves the state unchanged. -/
theorem c8_calibration (s : TrackerState) :
    (HeadMouseTracker.calibrate_center s).cal_yaw = 180 - s.raw_yaw ∧
    (HeadMouseTracker.calibrate_center s).cal_pitch = 180 - s.raw_pitch ∧
    s.raw_yaw + (HeadMouseTracker.calibrate_center s).cal_yaw = 180 ∧
    s.raw_pitch + (HeadMouseTracker.calibrate_center s).cal_pitch = 180 ∧
    HeadMouseTracker.calibrate_center (HeadMouseTracker.calibrate_center s) =
      HeadMouseTracker.calibrate_center s := by
  refine ⟨rfl, rfl, ?_, ?_, rfl⟩
  · show s.raw_yaw + (180 - s.raw_yaw) = 180
    ring
  · show s.raw_pitch + (180 - s.raw_pitch) = 180
    ring

/-- Witness for C8 on a freshly constructed tracker. -/
theorem c8_calibration_witness :
    (HeadMouseTracker.calibrate_center
        (HeadMouseTracker.init 40 20 10 none none none false true 800 600)).cal_yaw =
      180 - (HeadMouseTracker.init 40 20 10 none none none false true 800 600).raw_yaw ∧
    (HeadMouseTracker.calibrate_center
        (HeadMouseTracker.init 40 20 10 none none none false true 800 600)).cal_pitch =
      180 - (HeadMouseTracker.init 40 20 10 none none none false true 800 600).raw_pitch ∧
    (HeadMouseTracker.init 40 20 10 none none none false true 800 600).raw_yaw +
      (HeadMouseTracker.calibrate_center
        (HeadMouseTracker.init 40 20 10 none none none false true 800 600)).cal_yaw = 180 ∧
    (HeadMouseTracker.init 40 20 10 none none none false true 800 600).raw_pitch +
      (HeadMouseTracker.calibrate_center
        (HeadMouseTracker.init 40 20 10 none none none false true 800 600)).cal_pitch = 180 ∧
    HeadMouseTracker.calibrate_center (HeadMouseTracker.calibrate_center
        (HeadMouseTracker.init 40 20 10 none none none false true 800 600)) =
      HeadMouseTracker.calibrate_center
        (HeadMouseTracker.init 40 20 10 none none none false true 800 600) :=
  c8_calibration (HeadMouseTracker.init 40 20 10 none none none false true 800 600)

/-- C9: for every calibrated yaw and pitch, positive configured ranges
and screen dimensions at least 20, the mapped screen coordinates are
clamped into the band from 10 to dimension minus 10. -/
theorem c9_clamp (yr pr : ℝ) (w h : ℕ) (yaw pitch : ℝ)
    (hyr : 0 < yr) (hpr : 0 < pr) (hw : 20 ≤ w) (hh : 20 ≤ h) :
    10 ≤ mapScreenX yr w yaw ∧ mapScreenX yr w yaw ≤ (w : ℤ) - 10 ∧
    10 ≤ mapScreenY pr h pitch ∧ mapScreenY pr h pitch ≤ (h : ℤ) - 10 := by
  have hw' : (20 : ℤ) ≤ (w : ℤ) := by exact_mod_cast hw
  have hh' : (20 : ℤ) ≤ (h : ℤ) := by exact_mod_cast hh
  simp only [mapScreenX, mapScreenY]
  refine ⟨le_max_left _ _, ?_, le_max_left _ _, ?_⟩
  · exact max_le (by omega) (min_le_left _ _)
  · exact max_le (by omega) (min_le_left _ _)

/-- Witness for C9 at ranges 20 and 10, a 640 by 480 screen and angle
inputs far outside the configured ranges. -/
theorem c9_clamp_witness :
    ((0 : ℝ) < 20 ∧ (0 : ℝ) < 10 ∧ 20 ≤ 640 ∧ 20 ≤ 480) ∧
    10 ≤ mapScreenX 20 640 100000 ∧ mapScreenX 20 640 100000 ≤ (640 : ℤ) - 10 ∧
    10 ≤ mapScreenY 10 480 (-99999) ∧ mapScreenY 10 480 (-99999) ≤ (480 : ℤ) - 10 :=
  ⟨⟨by norm_num, by norm_num, by norm_num, by norm_num⟩,
   c9_clamp 20 10 640 480 100000 (-99999)
     (by norm_num) (by norm_num) (by norm_num) (by norm_num)⟩

/-- C10: a freshly constructed tracker has raw yaw and pitch 180, its
cursor target at the screen center, zero calibration offsets, and
calibrating before the first processed frame sets the offsets to zero
again. -/
theorem c10_initial_state (fl : ℕ) (yr pr : ℝ) (c b f : Option ℝ)
    (fm aro : Bool) (w h : ℕ) :
    (HeadMouseTracker.init fl yr pr c b f fm aro w h).raw_yaw = 180 ∧
    (HeadMouseTracker.init fl yr pr c b f fm aro w h).raw_pitch = 180 ∧
    (HeadMouseTracker.init fl yr pr c b f fm aro w h).mouse_target =
      (((w / 2 : ℕ) : ℤ), ((h / 2 : ℕ) : ℤ)) ∧
    (HeadMouseTracker.init fl yr pr c b f fm aro w h).cal_yaw = 0 ∧
    (HeadMouseTracker.init fl yr pr c b f fm aro w h).cal_pitch = 0 ∧
    (HeadMouseTracker.calibrate_center
        (HeadMouseTracker.init fl yr pr c b f fm aro w h)).cal_yaw = 0 ∧
    (HeadMouseTracker.calibrate_center
        (HeadMouseTracker.init fl yr pr c b f fm aro w h)).cal_pitch = 0 := by
  refine ⟨rfl, rfl, rfl, rfl, rfl, ?_, ?_⟩
  · show (180 : ℝ) - 180 = 0
    norm_num
  · show (180 : ℝ) - 180 = 0
    norm_num

/-! Concrete frames and trackers used in the scenario claims. -/

/-- The tracker of the end-to-end scenario: ray-buffer length 1, yaw
range 20, pitch range 10, no explicit coefficients, slow mode, 640 by
480 screen, zero calibration offsets. -/
def trackerC1 : TrackerState :=
  HeadMouseTracker.init 1 20 10 none none none false true 640 480

/-- The landmark frame of the end-to-end scenario: left (-1,0,0),
right (1,0,0), top (0,1,0), bottom (0,-1,0), front (0,0,-1).  Its
head-local forward direction equals the reference forward (0,0,-1). -/
def ptsA : FacePoints :=
  ⟨⟨-1, 0, 0⟩, ⟨1, 0, 0⟩, ⟨0, 1, 0⟩, ⟨0, -1, 0⟩, ⟨0, 0, -1⟩⟩

/-- The mirrored landmark frame with top (0,-1,0) and bottom (0,1,0)
(image-style coordinates, as produced by a face looking into the
camera): its head-local forward direction is (0,0,1), the negation of
the reference forward. -/
def ptsB : FacePoints :=
  ⟨⟨-1, 0, 0⟩, ⟨1, 0, 0⟩, ⟨0, -1, 0⟩, ⟨0, 1, 0⟩, ⟨0, 0, 1⟩⟩

/-- A degenerate landmark frame whose right and left points coincide, so
the spanning vector `right - left` has zero norm. -/
def degPts : FacePoints :=
  ⟨⟨0, 0, 0⟩, ⟨0, 0, 0⟩, ⟨0, 1, 0⟩, ⟨0, -1, 0⟩, ⟨0, 0, -1⟩⟩

/-- A default-configured tracker with ray-buffer length 40. -/
def trackerC2 : TrackerState :=
  HeadMouseTracker.init 40 20 10 none none none false true 640 480

/-! Evaluation helpers for the concrete frames. -/

lemma sqrt_four : Real.sqrt 4 = 2 := by
  rw [show (4 : ℝ) = 2 ^ 2 by norm_num, Real.sqrt_sq (by norm_num)]

lemma radToDeg_zero : radToDeg 0 = 0 := by
  simp [radToDeg]

lemma radToDeg_pi : radToDeg π = 180 := by
  rw [radToDeg, mul_comm, mul_div_assoc, div_self Real.pi_ne_zero, mul_one]

lemma clip_one : clip 1 (-1) 1 = 1 := by
  rw [clip, min_self]
  exact max_eq_right (by norm_num)

lemma clip_neg_one : clip (-1) (-1) 1 = -1 := by
  rw [clip, min_eq_left (by norm_num : (-1 : ℝ) ≤ 1), max_self]

lemma faceForward_A : faceForward ptsA = ⟨0, 0, -1⟩ := by
  norm_num [faceForward, ptsA, Vec3.sub, Vec3.normalize, Vec3.norm, Vec3.divs,
    Vec3.cross, Vec3.neg, Vec3.mk.injEq, sqrt_four, Real.sqrt_one]

lemma faceForward_B : faceForward ptsB = ⟨0, 0, 1⟩ := by
  norm_num [faceForward, ptsB, Vec3.sub, Vec3.normalize, Vec3.norm, Vec3.divs,
    Vec3.cross, Vec3.neg, Vec3.mk.injEq, sqrt_four, Real.sqrt_one]

lemma smoothedDirection_A : smoothedDirection trackerC1 ptsA = ⟨0, 0, -1⟩ := by
  rw [smoothedDirection, faceForward_A]
  show Vec3.normalize (Vec3.mean (dequeAppend [] ⟨0, 0, -1⟩ 1)) = _
  norm_num [dequeAppend, Vec3.mean, Vec3.add, Vec3.divs, Vec3.normalize,
    Vec3.norm, Vec3.mk.injEq, Real.sqrt_one]

lemma smoothedDirection_B : smoothedDirection trackerC1 ptsB = ⟨0, 0, 1⟩ := by
  rw [smoothedDirection, faceForward_B]
  show Vec3.normalize (Vec3.mean (dequeAppend [] ⟨0, 0, 1⟩ 1)) = _
  norm_num [dequeAppend, Vec3.mean, Vec3.add, Vec3.divs, Vec3.normalize,
    Vec3.norm, Vec3.mk.injEq, Real.sqrt_one]

lemma frameYaw_A : frameYaw trackerC1 ptsA = 360 := by
  rw [frameYaw, smoothedDirection_A]
  norm_num [yawFromDirection, Vec3.normalize, Vec3.norm, Vec3.divs, Vec3.dot,
    clip_one, radToDeg_zero, normalizeYawDeg, Real.sqrt_one, Real.arccos_one]

lemma framePitch_A : framePitch trackerC1 ptsA = 0 := by
  rw [framePitch, smoothedDirection_A]
  norm_num [pitchFromDirection, Vec3.normalize, Vec3.norm, Vec3.divs, Vec3.dot,
    clip_one, radToDeg_zero, normalizePitchDeg, Real.sqrt_one, Real.arccos_one]

lemma frameYaw_B : frameYaw trackerC1 ptsB = 180 := by
  rw [frameYaw, smoothedDirection_B]
  norm_num [yawFromDirection, Vec3.normalize, Vec3.norm, Vec3.divs, Vec3.dot,
    clip_neg_one, radToDeg_pi, normalizeYawDeg, Real.sqrt_one, Real.arccos_neg_one]

lemma framePitch_B : framePitch trackerC1 ptsB = 180 := by
  rw [framePitch, smoothedDirection_B]
  norm_num [pitchFromDirection, Vec3.normalize, Vec3.norm, Vec3.divs, Vec3.dot,
    clip_neg_one, radToDeg_pi, normalizePitchDeg, Real.sqrt_one, Real.arccos_neg_one]

lemma frameScreenX_A : frameScreenX trackerC1 ptsA = 630 := by
  rw [frameScreenX, frameYaw_A]
  show mapScreenX 20 640 (360 + 0) = 630
  norm_num [mapScreenX]
  rw [pyInt_eval 3200 3200 (by norm_num) (by norm_num) (by norm_num)]
  omega

lemma frameScreenY_A : frameScreenY trackerC1 ptsA = 470 := by
  rw [frameScreenY, framePitch_A]
  show mapScreenY 10 480 (0 + 0) = 470
  norm_num [mapScreenY]
  rw [pyInt_eval 4560 4560 (by norm_num) (by norm_num) (by norm_num)]
  omega

lemma frameScreenX_B : frameScreenX trackerC1 ptsB = 320 := by
  rw [frameScreenX, frameYaw_B]
  show mapScreenX 20 640 (180 + 0) = 320
  norm_num [mapScreenX]
  rw [pyInt_eval 320 320 (by norm_num) (by norm_num) (by norm_num)]
  omega

lemma frameScreenY_B : frameScreenY trackerC1 ptsB = 240 := by
  rw [frameScreenY, framePitch_B]
  show mapScreenY 10 480 (180 + 0) = 240
  norm_num [mapScreenY]
  rw [pyInt_eval 240 240 (by norm_num) (by norm_num) (by norm_num)]
  omega

/-- C1 counterexample: on the scenario frame whose head-local forward
equals the reference forward (0,0,-1), the normalization of lines
385-390 of the source yields raw yaw 360 and raw pitch 0 (not 180 and
180), and the cursor target becomes the clamped corner (630, 470), not
the screen center (320, 240). -/
theorem c1_center_scenario_counterexample :
    faceForward ptsA = ⟨0, 0, -1⟩ ∧
    (HeadMouseTracker.processFrame trackerC1 ptsA).raw_yaw = 360 ∧
    (HeadMouseTracker.processFrame trackerC1 ptsA).raw_pitch = 0 ∧
    (HeadMouseTracker.processFrame trackerC1 ptsA).raw_yaw ≠ 180 ∧
    (HeadMouseTracker.processFrame trackerC1 ptsA).mouse_target ≠ (320, 240) := by
  have hy : (HeadMouseTracker.processFrame trackerC1 ptsA).raw_yaw =
      frameYaw trackerC1 ptsA := rfl
  have hp : (HeadMouseTracker.processFrame trackerC1 ptsA).raw_pitch =
      framePitch trackerC1 ptsA := rfl
  have htar : (HeadMouseTracker.processFrame trackerC1 ptsA).mouse_target =
      (pyRound ((frameScreenX trackerC1 ptsA : ℤ) : ℝ),
       pyRound ((frameScreenY trackerC1 ptsA : ℤ) : ℝ)) := rfl
  refine ⟨faceForward_A, ?_, ?_, ?_, ?_⟩
  · rw [hy, frameYaw_A]
  · rw [hp, framePitch_A]
  · rw [hy, frameYaw_A]
    norm_num
  · rw [htar, frameScreenX_A, frameScreenY_A, pyRound_intCast, pyRound_intCast]
    decide

/-- C1 amended: the scenario frame has forward equal to the reference
forward and yields raw yaw 360, raw pitch 0 and the clamped target
(630, 470); it is the mirrored frame, with forward (0,0,1) opposite to
the reference forward (a face looking into the camera), that yields raw
yaw 180, raw pitch 180 and the screen-center target (320, 240). -/
theorem c1_center_scenario_amended :
    faceForward ptsA = ⟨0, 0, -1⟩ ∧
    (HeadMouseTracker.processFrame trackerC1 ptsA).raw_yaw = 360 ∧
    (HeadMouseTracker.processFrame trackerC1 ptsA).raw_pitch = 0 ∧
    (HeadMouseTracker.processFrame trackerC1 ptsA).mouse_target = (630, 470) ∧
    faceForward ptsB = ⟨0, 0, 1⟩ ∧
    (HeadMouseTracker.processFrame trackerC1 ptsB).raw_yaw = 180 ∧
    (HeadMouseTracker.processFrame trackerC1 ptsB).raw_pitch = 180 ∧
    (HeadMouseTracker.processFrame trackerC1 ptsB).mouse_target = (320, 240) := by
  have hyA : (HeadMouseTracker.processFrame trackerC1 ptsA).raw_yaw =
      frameYaw trackerC1 ptsA := rfl
  have hpA : (HeadMouseTracker.processFrame trackerC1 ptsA).raw_pitch =
      framePitch trackerC1 ptsA := rfl
  have htarA : (HeadMouseTracker.processFrame trackerC1 ptsA).mouse_target =
      (pyRound ((frameScreenX trackerC1 ptsA : ℤ) : ℝ),
       pyRound ((frameScreenY trackerC1 ptsA : ℤ) : ℝ)) := rfl
  have hyB : (HeadMouseTracker.processFrame trackerC1 ptsB).raw_yaw =
      frameYaw trackerC1 ptsB := rfl
  have hpB : (HeadMouseTracker.processFrame trackerC1 ptsB).raw_pitch =
      framePitch trackerC1 ptsB := rfl
  have htarB : (HeadMouseTracker.processFrame trackerC1 ptsB).mouse_target =
      (pyRound ((frameScreenX trackerC1 ptsB : ℤ) : ℝ),
       pyRound ((frameScreenY trackerC1 ptsB : ℤ) : ℝ)) := rfl
  refine ⟨faceForward_A, ?_, ?_, ?_, faceForward_B, ?_, ?_, ?_⟩
  · rw [hyA, frameYaw_A]
  · rw [hpA, framePitch_A]
  · rw [htarA, frameScreenX_A, frameScreenY_A, pyRound_intCast, pyRound_intCast]
  · rw [hyB, frameYaw_B]
  · rw [hpB, framePitch_B]
  · rw [htarB, frameScreenX_B, frameScreenY_B, pyRound_intCast, pyRound_intCast]

lemma norm_sub_degPts : Vec3.norm (Vec3.sub degPts.right degPts.left) = 0 := by
  show Vec3.norm ⟨0 - 0, 0 - 0, 0 - 0⟩ = 0
  norm_num [Vec3.norm, Real.sqrt_zero]

lemma degenerateFrame_degPts : degenerateFrame degPts = true := by
  rw [degenerateFrame, if_pos norm_sub_degPts]

/-- C2 counterexample: a frame whose right and left landmarks coincide
(zero-length spanning vector) is not rejected like a no-face frame.  The
no-face path completes its iteration and leaves the state unchanged so
that the loop continues, while the degenerate frame makes the
cube-corner `int()` conversions on line 353 of the source raise an
uncaught ValueError, aborting the processing loop: the two outcomes
differ. -/
theorem c2_degenerate_counterexample :
    degPts.right = degPts.left ∧
    Vec3.norm (Vec3.sub degPts.right degPts.left) = 0 ∧
    degenerateFrame degPts = true ∧
    HeadMouseTracker.processFrameStep trackerC2 degPts = none ∧
    HeadMouseTracker.noFaceStep trackerC2 = trackerC2 ∧
    HeadMouseTracker.processFrameStep trackerC2 degPts ≠
      some (HeadMouseTracker.noFaceStep trackerC2) := by
  have hstep : HeadMouseTracker.processFrameStep trackerC2 degPts = none := by
    rw [HeadMouseTracker.processFrameStep, degenerateFrame_degPts]
    rfl
  refine ⟨rfl, norm_sub_degPts, degenerateFrame_degPts, hstep, rfl, ?_⟩
  rw [hstep]
  exact fun hcontra => Option.noConfusion hcontra

/-- C2 amended: degenerate frames are not rejected like no-face frames.
For every tracker state, an iteration on a degenerate frame aborts with
the uncaught ValueError of line 353 before any state change: the raw
angles, ray buffer, filter states and cursor target are indeed left
unchanged and no non-finite value reaches them, but the processing loop
terminates, whereas a no-face frame also leaves the state unchanged and
processing then continues with the next frame. -/
theorem c2_degenerate_amended (s : TrackerState) (pts : FacePoints)
    (hdeg : degenerateFrame pts = true) :
    HeadMouseTracker.processFrameStep s pts = none ∧
    HeadMouseTracker.noFaceStep s = s := by
  refine ⟨?_, rfl⟩
  rw [HeadMouseTracker.processFrameStep, hdeg]
  rfl

/-- Witness for C2 amended on the default tracker and the coinciding
right-left frame. -/
theorem c2_degenerate_amended_witness :
    degenerateFrame degPts = true ∧
    HeadMouseTracker.processFrameStep trackerC2 degPts = none ∧
    HeadMouseTracker.noFaceStep trackerC2 = trackerC2 :=
  ⟨degenerateFrame_degPts,
   c2_degenerate_amended trackerC2 degPts degenerateFrame_degPts⟩

/-- C3 counterexample: with mouse control disabled, a successfully
processed frame does not write the newly computed smoothed coordinates
into the shared cursor target.  The frame computes the smoothed
coordinates (630, 470), but the target stays at the initial center
(320, 240), because line 413 of the source guards the target update with
`mouse_enabled`. -/
theorem c3_target_write_counterexample :
    (HeadMouseTracker.toggle_mouse_control trackerC1).mouse_enabled = false ∧
    (HeadMouseTracker.processFrame
        (HeadMouseTracker.toggle_mouse_control trackerC1) ptsA).mouse_target = (320, 240) ∧
    pyRound (((HeadMouseTracker.toggle_mouse_control trackerC1).filter_x.filterStep
        ((frameScreenX (HeadMouseTracker.toggle_mouse_control trackerC1) ptsA : ℤ) : ℝ)).1) = 630 ∧
    pyRound (((HeadMouseTracker.toggle_mouse_control trackerC1).filter_y.filterStep
        ((frameScreenY (HeadMouseTracker.toggle_mouse_control trackerC1) ptsA : ℤ) : ℝ)).1) = 470 ∧
    ((630 : ℤ), (470 : ℤ)) ≠ ((320 : ℤ), (240 : ℤ)) := by
  have hsx : frameScreenX (HeadMouseTracker.toggle_mouse_control trackerC1) ptsA = 630 :=
    frameScreenX_A
  have hsy : frameScreenY (HeadMouseTracker.toggle_mouse_control trackerC1) ptsA = 470 :=
    frameScreenY_A
  refine ⟨rfl, rfl, ?_, ?_, by decide⟩
  · rw [hsx]
    exact pyRound_intCast 630
  · rw [hsy]
    exact pyRound_intCast 470

/-- C3 amended: the processing loop writes the newly computed smoothed
coordinates into the shared cursor target only when mouse control is
enabled; when it is disabled the target is left unchanged, so
`toggle_mouse_control` suppresses both the target update and the
actuation loop's pointer move. -/
theorem c3_target_write_amended (s : TrackerState) (pts : FacePoints) :
    (s.mouse_enabled = false →
      (HeadMouseTracker.processFrame s pts).mouse_target = s.mouse_target ∧
      HeadMouseTracker.mouseMoverTick s = none) ∧
    (s.mouse_enabled = true →
      (HeadMouseTracker.processFrame s pts).mouse_target =
        (pyRound ((s.filter_x.filterStep ((frameScreenX s pts : ℤ) : ℝ)).1),
         pyRound ((s.filter_y.filterStep ((frameScreenY s pts : ℤ) : ℝ)).1)) ∧
      HeadMouseTracker.mouseMoverTick s = some s.mouse_target) := by
  constructor
  · intro h
    constructor
    · simp [HeadMouseTracker.processFrame, h]
    · simp [HeadMouseTracker.mouseMoverTick, h]
  · intro h
    constructor
    · simp [HeadMouseTracker.processFrame, h]
    · simp [HeadMouseTracker.mouseMoverTick, h]

/-- Witness for C3 amended: on a toggled-off tracker the target is
preserved by a processed frame and no pointer move is issued. -/
theorem c3_target_write_amended_witness :
    (HeadMouseTracker.toggle_mouse_control trackerC2).mouse_enabled = false ∧
    (HeadMouseTracker.processFrame
        (HeadMouseTracker.toggle_mouse_control trackerC2) ptsB).mouse_target =
      (HeadMouseTracker.toggle_mouse_control trackerC2).mouse_target ∧
    HeadMouseTracker.mouseMoverTick (HeadMouseTracker.toggle_mouse_control trackerC2) =
      none :=
  ⟨rfl, (c3_target_write_amended (HeadMouseTracker.toggle_mouse_control trackerC2)
    ptsB).1 rfl⟩

/-- A tracker constructed with all three filter coefficients explicitly
supplied as 0.0 (line 103 of the source treats 0.0 as falsy, so the
override permission is not revoked, and lines 116-118 replace each 0.0
by the slow-mode preset). -/
def trackerC4 : TrackerState :=
  HeadMouseTracker.init 40 20 10 (some 0) (some 0) (some 0) false true 640 480

/-- C4 counterexample: supplying the explicit coefficients 0.0 at
construction does not make `set_performance_mode` preserve them.  The
construction itself already replaces them by the slow preset (cutoff
1.5), and a subsequent `set_performance_mode(true)` switches the cutoff
to the fast preset 0.8 and rebuilds the filter instances, contradicting
the claim that explicit coefficients, including 0.0, are preserved. -/
theorem c4_explicit_coeffs_counterexample :
    trackerC4.euro_cutoff = 1.5 ∧
    trackerC4.allow_override = true ∧
    (HeadMouseTracker.set_performance_mode trackerC4 true).euro_cutoff = 0.8 ∧
    (HeadMouseTracker.set_performance_mode trackerC4 true).euro_cutoff ≠ trackerC4.euro_cutoff ∧
    (HeadMouseTracker.set_performance_mode trackerC4 true).euro_cutoff ≠ 0 ∧
    (HeadMouseTracker.set_performance_mode trackerC4 true).filter_x ≠ trackerC4.filter_x := by
  have hcut : trackerC4.euro_cutoff = 1.5 := by
    show (if (0 : ℝ) = 0 then (1.5 : ℝ) else 0) = 1.5
    rw [if_pos rfl]
  have hov : trackerC4.allow_override = true := by
    show (true && !(pyTruthy (some 0) || pyTruthy (some 0) || pyTruthy (some 0))) = true
    have ht : pyTruthy (some (0 : ℝ)) = false := by
      show (if (0 : ℝ) = 0 then false else true) = false
      rw [if_pos rfl]
    rw [ht]
    rfl
  have hfast : (HeadMouseTracker.set_performance_mode trackerC4 true).euro_cutoff = 0.8 := by
    rw [HeadMouseTracker.set_performance_mode]
    simp only [hov]
    rfl
  have hfx : (HeadMouseTracker.set_performance_mode trackerC4 true).filter_x =
      ⟨0.8, 0.015, 1, 120, none, none⟩ := by
    rw [HeadMouseTracker.set_performance_mode]
    simp only [hov]
    rfl
  have hfx0 : trackerC4.filter_x = ⟨1.5, 0.03, 1, 45, none, none⟩ := by
    show (⟨if (0 : ℝ) = 0 then (1.5 : ℝ) else 0, if (0 : ℝ) = 0 then (0.03 : ℝ) else 0, 1,
          if (0 : ℝ) = 0 then (45 : ℝ) else 0, none, none⟩ : OneEuroFilter) = _
    rw [if_pos rfl, if_pos rfl, if_pos rfl]
  refine ⟨hcut, hov, hfast, ?_, ?_, ?_⟩
  · rw [hfast, hcut]
    norm_num
  · rw [hfast]
    norm_num
  · rw [hfx, hfx0]
    intro hcontra
    have := congrArg OneEuroFilter.min_cutoff hcontra
    norm_num at this

/-- C4 amended: when at least one supplied coefficient is truthy in the
Python sense (non-None and nonzero), the override permission is revoked
and `set_performance_mode` preserves the coefficients as resolved at
construction together with the per-axis filter instances, changing only
the actuation tick interval and the `fast_mode` flag.  Coefficients
supplied as 0.0 are treated as unsupplied. -/
theorem c4_explicit_coeffs_amended (fl : ℕ) (yr pr : ℝ) (c b f : Option ℝ)
    (fm aro : Bool) (w h : ℕ) (fast : Bool)
    (huser : (pyTruthy c || pyTruthy b || pyTruthy f) = true) :
    HeadMouseTracker.set_performance_mode
        (HeadMouseTracker.init fl yr pr c b f fm aro w h) fast =
      { HeadMouseTracker.init fl yr pr c b f fm aro w h with
        fast_mode := fast,
        mouse_sleep := if fast then 0.005 else 0.016 } := by
  have hov : (HeadMouseTracker.init fl yr pr c b f fm aro w h).allow_override = false := by
    show (aro && !(pyTruthy c || pyTruthy b || pyTruthy f)) = false
    rw [huser, Bool.not_true, Bool.and_false]
  rw [HeadMouseTracker.set_performance_mode]
  simp only [hov]
  rfl

/-- Witness for C4 amended: the tracker of the source file's `main`
(coefficients 1.2, 0.02, 60) keeps its state except for the tick
interval and the mode flag when switched to fast mode. -/
theorem c4_explicit_coeffs_amended_witness :
    (pyTruthy (some (1.2 : ℝ)) || pyTruthy (some (0.02 : ℝ)) ||
        pyTruthy (some (60 : ℝ))) = true ∧
    HeadMouseTracker.set_performance_mode
        (HeadMouseTracker.init 40 20 10 (some 1.2) (some 0.02) (some 60)
          false true 640 480) true =
      { HeadMouseTracker.init 40 20 10 (some 1.2) (some 0.02) (some 60)
          false true 640 480 with
        fast_mode := true,
        mouse_sleep := if true then 0.005 else 0.016 } := by
  have ht : (pyTruthy (some (1.2 : ℝ)) || pyTruthy (some (0.02 : ℝ)) ||
      pyTruthy (some (60 : ℝ))) = true := by
    have h1 : pyTruthy (some (1.2 : ℝ)) = true := by
      show (if (1.2 : ℝ) = 0 then false else true) = true
      rw [if_neg (by norm_num)]
    rw [h1]
    rfl
  exact ⟨ht, c4_explicit_coeffs_amended 40 20 10 (some 1.2) (some 0.02) (some 60)
    false true 640 480 true ht⟩

/-- C5 counterexample: the screen mapping is not strictly monotone in the
calibrated yaw.  With yaw range 20 and a 640-pixel-wide screen, the yaws
180 and 180.01 both lie in the configured range, 180 is strictly
smaller, yet both map to pixel 320 because `int()` truncates. -/
theorem c5_monotone_counterexample :
    (180 : ℝ) < 18001 / 100 ∧
    (180 : ℝ) - 20 ≤ 180 ∧ (18001 / 100 : ℝ) ≤ 180 + 20 ∧
    mapScreenX 20 640 180 = 320 ∧
    mapScreenX 20 640 (18001 / 100) = 320 ∧
    ¬mapScreenX 20 640 180 < mapScreenX 20 640 (18001 / 100) := by
  have e1 : mapScreenX 20 640 180 = 320 := by
    rw [mapScreenX]
    have : (((180 : ℝ) - (180 - 20)) / (2 * 20)) * (640 : ℕ) = 320 := by
      norm_num
    rw [this, pyInt_eval 320 320 (by norm_num) (by norm_num) (by norm_num)]
    omega
  have e2 : mapScreenX 20 640 (18001 / 100) = 320 := by
    rw [mapScreenX]
    have : ((((18001 : ℝ) / 100) - (180 - 20)) / (2 * 20)) * (640 : ℕ) = 8004 / 25 := by
      norm_num
    rw [this, pyInt_eval (8004 / 25) 320 (by norm_num) (by norm_num) (by norm_num)]
    omega
  refine ⟨by norm_num, by norm_num, by norm_num, e1, e2, ?_⟩
  rw [e1, e2]
  omega

/-- C5 amended: within a configuration with positive ranges, the mapping
is monotone rather than strictly monotone: a not-smaller calibrated yaw
never maps to a smaller `screen_x`, and a not-smaller calibrated pitch
never maps to a larger `screen_y`.  Strictness fails only because of the
`int()` pixel truncation and the boundary clamping. -/
theorem c5_monotone_amended (yr pr : ℝ) (w h : ℕ) (y1 y2 p1 p2 : ℝ)
    (hyr : 0 < yr) (hpr : 0 < pr) (hy12 : y1 ≤ y2) (hp12 : p1 ≤ p2)
    (hy1 : 180 - yr ≤ y1) (hy2 : y2 ≤ 180 + yr)
    (hp1 : 180 - pr ≤ p1) (hp2 : p2 ≤ 180 + pr) :
    mapScreenX yr w y1 ≤ mapScreenX yr w y2 ∧
    mapScreenY pr h p2 ≤ mapScreenY pr h p1 := by
  constructor
  · simp only [mapScreenX]
    refine max_le_max le_rfl (min_le_min le_rfl (pyInt_mono ?_))
    have h2yr : (0 : ℝ) < 2 * yr := by linarith
    refine mul_le_mul_of_nonneg_right ?_ (Nat.cast_nonneg w)
    rw [div_le_div_iff_of_pos_right h2yr]
    linarith
  · simp only [mapScreenY]
    refine max_le_max le_rfl (min_le_min le_rfl (pyInt_mono ?_))
    have h2pr : (0 : ℝ) < 2 * pr := by linarith
    refine mul_le_mul_of_nonneg_right ?_ (Nat.cast_nonneg h)
    rw [div_le_div_iff_of_pos_right h2pr]
    linarith

/-- Witness for C5 amended on the default configuration with two yaw and
two pitch values inside the configured ranges. -/
theorem c5_monotone_amended_witness :
    ((0 : ℝ) < 20 ∧ (0 : ℝ) < 10 ∧ (170 : ℝ) ≤ 190 ∧ (175 : ℝ) ≤ 185 ∧
      (180 : ℝ) - 20 ≤ 170 ∧ (190 : ℝ) ≤ 180 + 20 ∧
      (180 : ℝ) - 10 ≤ 175 ∧ (185 : ℝ) ≤ 180 + 10) ∧
    mapScreenX 20 640 170 ≤ mapScreenX 20 640 190 ∧
    mapScreenY 10 480 185 ≤ mapScreenY 10 480 175 :=
  ⟨⟨by norm_num, by norm_num, by norm_num, by norm_num,
    by norm_num, by norm_num, by norm_num, by norm_num⟩,
   c5_monotone_amended 20 10 640 480 170 190 175 185
     (by norm_num) (by norm_num) (by norm_num) (by norm_num)
     (by norm_num) (by norm_num) (by norm_num) (by norm_num)⟩

/-- Witness for C10 on a default-configured tracker with a 640 by 480
screen. -/
theorem c10_initial_state_witness :
    (HeadMouseTracker.init 40 20 10 none none none false true 640 480).raw_yaw = 180 ∧
    (HeadMouseTracker.init 40 20 10 none none none false true 640 480).raw_pitch = 180 ∧
    (HeadMouseTracker.init 40 20 10 none none none false true 640 480).mouse_target =
      (((640 / 2 : ℕ) : ℤ), ((480 / 2 : ℕ) : ℤ)) ∧
    (HeadMouseTracker.init 40 20 10 none none none false true 640 480).cal_yaw = 0 ∧
    (HeadMouseTracker.init 40 20 10 none none none false true 640 480).cal_pitch = 0 ∧
    (HeadMouseTracker.calibrate_center
        (HeadMouseTracker.init 40 20 10 none none none false true 640 480)).cal_yaw = 0 ∧
    (HeadMouseTracker.calibrate_center
        (HeadMouseTracker.init 40 20 10 none none none false true 640 480)).cal_pitch = 0 :=
  c10_initial_state 40 20 10 none none none false true 640 480

end
